import Mathlib

/-!
Shallow embedding of the synchronization bridge implemented by the
`useBlockSync` hook in
`src/packages/block-editor/src/components/provider/use-block-sync.js`.

Block trees, selection positions and client ids are opaque values compared
by reference in the source; we model each reference as a `Nat`, so that
JavaScript reference equality (`===`) becomes equality of the modelled
reference.  A JavaScript value that may be `null`/`undefined` is modelled
as an `Option`.  The two effects of the hook become pure functions:

* the inbound reconciliation effect (source lines 126-155) becomes
  `inboundReconcile`, which maps the current `pendingChanges` and the
  hook's props to the updated `pendingChanges` and the ordered list of
  store dispatch calls it performs;
* the `registry.subscribe` callback of the outbound watch effect
  (source lines 77-121) becomes `onStoreChange`, which maps the
  subscription-local state, the current `pendingChanges` and the data read
  from the store on one notification to the updated state and the list of
  `onChange` / `onInput` calls emitted.
-/

namespace UseBlockSync

/-- An opaque reference (a block-tree array, a selection position object or
a client id in the source); reference equality is modelled as `Nat`
equality. -/
abbrev Ref := Nat

/-- The `pendingChanges` ref of the hook (source line 32):
`{ incoming: null, outgoing: [] }`. -/
structure PendingChanges where
  incoming : Option Ref
  outgoing : List Ref
deriving DecidableEq, Repr

/-- The props destructured by `useBlockSync` (source lines 12-20) that the
two effects read: `clientId`, `value` (named `controlledBlocks`),
`isDisabled`, `selectionStart` and `selectionEnd`.  `onChange` / `onInput`
are modelled by the emitted `ParentCall` values instead of as functions. -/
structure BridgeProps where
  clientId : Option Ref
  value : Option Ref
  isDisabled : Bool
  selectionStart : Option Ref
  selectionEnd : Option Ref
deriving DecidableEq, Repr

/-- A dispatch call made against the `core/block-editor` store. -/
inductive StoreCall where
  | setHasControlledInnerBlocks (clientId : Ref) (controlled : Bool)
  | markNextChangeAsNotPersistent
  | replaceInnerBlocks (clientId : Ref) (blocks : Ref)
  | resetBlocks (blocks : Ref)
  | resetSelection (selectionStart selectionEnd : Ref)
deriving DecidableEq, Repr

/-- `setControlledBlocks` (source lines 34-48): no-op when
`controlledBlocks` is falsy; otherwise, with a `clientId`, mark the
container controlled, mark the next change as not persistent and replace
the inner blocks; without one, reset the whole block tree. -/
def setControlledBlocks (props : BridgeProps) : List StoreCall :=
  match props.value with
  | none => []
  | some blocks =>
    match props.clientId with
    | some cid =>
      [StoreCall.setHasControlledInnerBlocks cid true,
       StoreCall.markNextChangeAsNotPersistent,
       StoreCall.replaceInnerBlocks cid blocks]
    | none => [StoreCall.resetBlocks blocks]

/-- `pendingChanges.current.outgoing.includes( controlledBlocks )`
(source line 127).  An absent value is never `===`-equal to a queued
block-tree array, so the test is `false` when `value` is `none`. -/
def includesValue (outgoing : List Ref) (value : Option Ref) : Bool :=
  match value with
  | some v => outgoing.contains v
  | none => false

/-- Result of one run of the inbound reconciliation effect. -/
structure InboundResult where
  pending : PendingChanges
  calls : List StoreCall
deriving DecidableEq, Repr

/-- The inbound reconciliation effect (source lines 126-155).  If the
external value is found in `outgoing`, clear `outgoing` exactly when it is
the last entry (lodash `last`); otherwise clear `outgoing`, record the
value as `incoming`, run `setControlledBlocks`, and reset the selection
when both selection endpoints are truthy.  The effect never reads
`isDisabled`. -/
def inboundReconcile (pc : PendingChanges) (props : BridgeProps) : InboundResult :=
  if includesValue pc.outgoing props.value then
    if pc.outgoing.getLast? == props.value then
      { pending := { pc with outgoing := [] }, calls := [] }
    else
      { pending := pc, calls := [] }
  else
    { pending := { incoming := props.value, outgoing := [] },
      calls :=
        setControlledBlocks props ++
          match props.selectionStart, props.selectionEnd with
          | some s, some e => [StoreCall.resetSelection s e]
          | _, _ => [] }

/-- The subscription-local state of the outbound watch effect (source
lines 73-75): `blocks` (starts `undefined`), `isPersistent` and
`previousAreBlocksDifferent`. -/
structure SyncState where
  blocks : Option Ref
  isPersistent : Bool
  previousAreBlocksDifferent : Bool
deriving DecidableEq, Repr

/-- A call to one of the two controller callbacks, with the block tree and
the selection bounds passed to it. -/
inductive ParentCall where
  | onChange (blocks : Ref) (selectionStart selectionEnd : Ref)
  | onInput (blocks : Ref) (selectionStart selectionEnd : Ref)
deriving DecidableEq, Repr

/-- What the subscribe callback reads from the store on one notification:
`getBlocks( clientId )`, `isLastBlockChangePersistent()`,
`__unstableIsLastBlockChangeIgnored()`, `getSelectionStart()` and
`getSelectionEnd()`. -/
structure StoreNotification where
  newBlocks : Ref
  newIsPersistent : Bool
  isLastBlockChangeIgnored : Bool
  selectionStart : Ref
  selectionEnd : Ref
deriving DecidableEq, Repr

/-- Result of one run of the subscribe callback. -/
structure SubscribeResult where
  state : SyncState
  pending : PendingChanges
  calls : List ParentCall
deriving DecidableEq, Repr

/-- The `registry.subscribe` callback (source lines 77-121).  When the
blocks differ and an incoming change is pending (or the last change is
ignored), consume the notification silently, returning before
`previousAreBlocksDifferent` is updated.  Otherwise, when the blocks
differ or a persistence flip commits the previous change, push the new
tree onto `outgoing` and call `onChange` (persistent) or `onInput`. -/
def onStoreChange (st : SyncState) (pc : PendingChanges) (n : StoreNotification) :
    SubscribeResult :=
  let areBlocksDifferent := some n.newBlocks != st.blocks
  if areBlocksDifferent && (pc.incoming.isSome || n.isLastBlockChangeIgnored) then
    { state := { st with blocks := some n.newBlocks, isPersistent := n.newIsPersistent },
      pending := { pc with incoming := none },
      calls := [] }
  else
    let didPersistenceChange :=
      st.previousAreBlocksDifferent && !areBlocksDifferent &&
        n.newIsPersistent && !st.isPersistent
    if areBlocksDifferent || didPersistenceChange then
      { state := { blocks := some n.newBlocks, isPersistent := n.newIsPersistent,
                   previousAreBlocksDifferent := areBlocksDifferent },
        pending := { pc with outgoing := pc.outgoing ++ [n.newBlocks] },
        calls := [if n.newIsPersistent then
                    ParentCall.onChange n.newBlocks n.selectionStart n.selectionEnd
                  else
                    ParentCall.onInput n.newBlocks n.selectionStart n.selectionEnd] }
    else
      { state := { st with previousAreBlocksDifferent := areBlocksDifferent },
        pending := pc, calls := [] }

/-- The local state installed by the outbound watch effect right before
subscribing (source lines 73-75): `blocks` is left `undefined` so that the
first notification sees `areBlocksDifferent = true`, `isPersistent` is
read from the store, `previousAreBlocksDifferent` starts `false`. -/
def initialSyncState (isPersistent : Bool) : SyncState :=
  { blocks := none, isPersistent := isPersistent, previousAreBlocksDifferent := false }

/-- Run the subscribe callback over a sequence of store notifications,
collecting every `onChange` / `onInput` call in order. -/
def runNotifications (st : SyncState) (pc : PendingChanges) :
    List StoreNotification → SyncState × PendingChanges × List ParentCall
  | [] => (st, pc, [])
  | n :: ns =>
    let r := onStoreChange st pc n
    let rest := runNotifications r.state r.pending ns
    (rest.1, rest.2.1, r.calls ++ rest.2.2)

/-- The outbound watch effect (source lines 54-123): when `isDisabled` it
returns before subscribing, so no notification is ever observed and no
controller callback ever fires; otherwise it subscribes with the freshly
initialised local state. -/
def outboundWatch (props : BridgeProps) (initialPersistent : Bool)
    (pc : PendingChanges) (ns : List StoreNotification) : List ParentCall :=
  if props.isDisabled then []
  else (runNotifications (initialSyncState initialPersistent) pc ns).2.2


/-- Characterization of a genuinely new external value: when the value is
present and not reference-equal to any queued outgoing entry, the effect
clears `outgoing`, records the value as `incoming`, issues the reset calls
of `setControlledBlocks` and, when both selection endpoints are present,
a selection reset. -/
theorem inboundReconcile_fresh (pc : PendingChanges) (props : BridgeProps) (v : Ref)
    (hval : props.value = some v) (hnot : v ∉ pc.outgoing) :
    inboundReconcile pc props =
      { pending := { incoming := some v, outgoing := [] },
        calls :=
          (match props.clientId with
            | some cid =>
              [StoreCall.setHasControlledInnerBlocks cid true,
               StoreCall.markNextChangeAsNotPersistent,
               StoreCall.replaceInnerBlocks cid v]
            | none => [StoreCall.resetBlocks v]) ++
          (match props.selectionStart, props.selectionEnd with
            | some s, some e => [StoreCall.resetSelection s e]
            | _, _ => []) } := by
  have hc : includesValue pc.outgoing (some v) = false := by
    simp only [includesValue]
    rw [Bool.eq_false_iff]
    intro hcon
    exact hnot (List.elem_iff.mp hcon)
  simp [inboundReconcile, hc, setControlledBlocks, hval]

/-- Claim C1: when the observed external value is reference-equal to the
last entry of a non-empty `pendingChanges.outgoing`, inbound
reconciliation clears `outgoing` to empty, makes no store call (in
particular neither `resetBlocks` nor `replaceInnerBlocks`), and leaves
`pendingChanges.incoming` unchanged. -/
theorem c1_self_echo_no_reset (pc : PendingChanges) (props : BridgeProps) (v : Ref)
    (hlast : pc.outgoing.getLast? = some v) (hval : props.value = some v) :
    (inboundReconcile pc props).pending.outgoing = [] ∧
    (inboundReconcile pc props).calls = [] ∧
    (inboundReconcile pc props).pending.incoming = pc.incoming := by
  have hmem : v ∈ pc.outgoing := List.mem_of_mem_getLast? hlast
  have hc : includesValue pc.outgoing (some v) = true := by
    simp only [includesValue]
    exact List.elem_iff.mpr hmem
  simp [inboundReconcile, hval, hc, hlast]

theorem c1_self_echo_no_reset_witness :
    (inboundReconcile ⟨some 9, [4, 5]⟩ ⟨none, some 5, false, none, none⟩).pending.outgoing = [] ∧
    (inboundReconcile ⟨some 9, [4, 5]⟩ ⟨none, some 5, false, none, none⟩).calls = [] ∧
    (inboundReconcile ⟨some 9, [4, 5]⟩ ⟨none, some 5, false, none, none⟩).pending.incoming =
      PendingChanges.incoming ⟨some 9, [4, 5]⟩ :=
  c1_self_echo_no_reset ⟨some 9, [4, 5]⟩ ⟨none, some 5, false, none, none⟩ 5 (by decide) rfl

/-- Claim C2: an external value not reference-equal to any entry of
`pendingChanges.outgoing` clears `outgoing`, sets `incoming` to that
value, and issues exactly one store reset with it: `resetBlocks` when
`clientId` is null, and `setHasControlledInnerBlocks` plus a
mark-next-change-not-persistent plus `replaceInnerBlocks` when `clientId`
is set (followed by a selection reset only when both endpoints are
present). -/
theorem c2_genuine_external_reset (pc : PendingChanges) (props : BridgeProps) (v : Ref)
    (hval : props.value = some v) (hnot : v ∉ pc.outgoing) :
    (inboundReconcile pc props).pending.outgoing = [] ∧
    (inboundReconcile pc props).pending.incoming = some v ∧
    (inboundReconcile pc props).calls =
      (match props.clientId with
        | some cid =>
          [StoreCall.setHasControlledInnerBlocks cid true,
           StoreCall.markNextChangeAsNotPersistent,
           StoreCall.replaceInnerBlocks cid v]
        | none => [StoreCall.resetBlocks v]) ++
      (match props.selectionStart, props.selectionEnd with
        | some s, some e => [StoreCall.resetSelection s e]
        | _, _ => []) := by
  rw [inboundReconcile_fresh pc props v hval hnot]
  exact ⟨rfl, rfl, rfl⟩

theorem c2_genuine_external_reset_witness :
    (inboundReconcile ⟨none, [4, 5]⟩ ⟨some 3, some 7, false, none, none⟩).pending.outgoing = [] ∧
    (inboundReconcile ⟨none, [4, 5]⟩ ⟨some 3, some 7, false, none, none⟩).pending.incoming = some 7 ∧
    (inboundReconcile ⟨none, [4, 5]⟩ ⟨some 3, some 7, false, none, none⟩).calls =
      [StoreCall.setHasControlledInnerBlocks 3 true,
       StoreCall.markNextChangeAsNotPersistent,
       StoreCall.replaceInnerBlocks 3 7] ++ [] :=
  c2_genuine_external_reset ⟨none, [4, 5]⟩ ⟨some 3, some 7, false, none, none⟩ 7 rfl (by decide)

/-- Claim C3: a store notification whose block tree differs by reference
from the tracked tree, while `pendingChanges.incoming` is non-null or the
last change is marked ignored, clears `incoming` to null, updates the
tracked tree and persistence snapshot to the new values, and calls
neither `onChange` nor `onInput`. -/
theorem c3_incoming_suppression (st : SyncState) (pc : PendingChanges) (n : StoreNotification)
    (hdiff : st.blocks ≠ some n.newBlocks)
    (hpend : pc.incoming.isSome = true ∨ n.isLastBlockChangeIgnored = true) :
    (onStoreChange st pc n).pending.incoming = none ∧
    (onStoreChange st pc n).state.blocks = some n.newBlocks ∧
    (onStoreChange st pc n).state.isPersistent = n.newIsPersistent ∧
    (onStoreChange st pc n).calls = [] := by
  have hb : (some n.newBlocks != st.blocks) = true := by
    simp only [bne_iff_ne, ne_eq]
    exact fun h => hdiff h.symm
  rcases hpend with h | h <;> simp [onStoreChange, hb, h]

theorem c3_incoming_suppression_witness :
    (onStoreChange ⟨some 1, false, true⟩ ⟨some 7, [2]⟩ ⟨9, true, false, 0, 0⟩).pending.incoming = none ∧
    (onStoreChange ⟨some 1, false, true⟩ ⟨some 7, [2]⟩ ⟨9, true, false, 0, 0⟩).state.blocks = some 9 ∧
    (onStoreChange ⟨some 1, false, true⟩ ⟨some 7, [2]⟩ ⟨9, true, false, 0, 0⟩).state.isPersistent = true ∧
    (onStoreChange ⟨some 1, false, true⟩ ⟨some 7, [2]⟩ ⟨9, true, false, 0, 0⟩).calls = [] :=
  c3_incoming_suppression ⟨some 1, false, true⟩ ⟨some 7, [2]⟩ ⟨9, true, false, 0, 0⟩
    (by decide) (Or.inl rfl)

/-- Claim C4: when `pendingChanges.outgoing` has at least two entries and
the observed external value is reference-equal to some entry but not to
the last one, inbound reconciliation leaves `pendingChanges` entirely
unchanged and performs no store call. -/
theorem c4_stale_echo_untouched (pc : PendingChanges) (props : BridgeProps) (v : Ref)
    (hlen : 2 ≤ pc.outgoing.length)
    (hmem : v ∈ pc.outgoing)
    (hval : props.value = some v)
    (hlast : pc.outgoing.getLast? ≠ some v) :
    (inboundReconcile pc props).pending = pc ∧ (inboundReconcile pc props).calls = [] := by
  have hc : includesValue pc.outgoing (some v) = true := by
    simp only [includesValue]
    exact List.elem_iff.mpr hmem
  have hbeq : (pc.outgoing.getLast? == some v) = false := by
    simp only [beq_eq_false_iff_ne, ne_eq]
    exact hlast
  simp [inboundReconcile, hval, hc, hbeq]

theorem c4_stale_echo_untouched_witness :
    (inboundReconcile ⟨none, [4, 5]⟩ ⟨none, some 4, false, none, none⟩).pending =
      (⟨none, [4, 5]⟩ : PendingChanges) ∧
    (inboundReconcile ⟨none, [4, 5]⟩ ⟨none, some 4, false, none, none⟩).calls = [] :=
  c4_stale_echo_untouched ⟨none, [4, 5]⟩ ⟨none, some 4, false, none, none⟩ 4
    (by decide) (by decide) rfl (by decide)

/-- Claim C5 counterexample: with `outgoing = [4, 5]` the external value
4 matches a queued outgoing entry by reference, yet inbound reconciliation
does not clear `outgoing` to empty (it stays `[4, 5]`), refuting the
claim that any match clears it. -/
theorem c5_clear_on_any_match_counterexample :
    includesValue (PendingChanges.outgoing ⟨none, [4, 5]⟩) (some 4) = true ∧
    (inboundReconcile ⟨none, [4, 5]⟩ ⟨none, some 4, false, none, none⟩).pending.outgoing ≠ [] := by
  decide

/-- Claim C5 (amended): over every inbound reconciliation step,
`pendingChanges.outgoing` is cleared to empty whenever the observed
external value either (a) is reference-equal to the LAST queued outgoing
entry, or (b) matches no queued entry at all (and is therefore treated as
a genuinely new external reset). -/
theorem c5_outgoing_clear_invariant (pc : PendingChanges) (props : BridgeProps)
    (h : pc.outgoing.getLast? = props.value ∨ includesValue pc.outgoing props.value = false) :
    (inboundReconcile pc props).pending.outgoing = [] := by
  rcases h with h | h
  · by_cases hc : includesValue pc.outgoing props.value = true
    · simp [inboundReconcile, hc, h]
    · simp [inboundReconcile, hc]
  · simp [inboundReconcile, h]

theorem c5_outgoing_clear_invariant_witness :
    (inboundReconcile ⟨none, [4, 5]⟩ ⟨none, some 5, false, none, none⟩).pending.outgoing = [] :=
  c5_outgoing_clear_invariant ⟨none, [4, 5]⟩ ⟨none, some 5, false, none, none⟩ (Or.inl (by decide))

/-- Claim C6: after a notification whose blocks differ by reference and
are forwarded non-persistently (via `onInput`), a second notification
with the same block reference but persistence flipped to true calls
`onChange` exactly once with the current tree and selection bounds, and
does not call `onInput`. -/
theorem c6_persistence_commit (st : SyncState) (pc : PendingChanges)
    (n1 n2 : StoreNotification)
    (hdiff : st.blocks ≠ some n1.newBlocks)
    (hinc : pc.incoming = none)
    (hign1 : n1.isLastBlockChangeIgnored = false)
    (hp1 : n1.newIsPersistent = false)
    (hsame : n2.newBlocks = n1.newBlocks)
    (hp2 : n2.newIsPersistent = true) :
    (onStoreChange st pc n1).calls =
      [ParentCall.onInput n1.newBlocks n1.selectionStart n1.selectionEnd] ∧
    (onStoreChange (onStoreChange st pc n1).state (onStoreChange st pc n1).pending n2).calls =
      [ParentCall.onChange n2.newBlocks n2.selectionStart n2.selectionEnd] := by
  have hb : (some n1.newBlocks != st.blocks) = true := by
    simp only [bne_iff_ne, ne_eq]
    exact fun h => hdiff h.symm
  constructor
  · simp [onStoreChange, hb, hinc, hign1, hp1]
  · simp [onStoreChange, hb, hinc, hign1, hp1, hsame, hp2]

theorem c6_persistence_commit_witness :
    (onStoreChange (initialSyncState false) ⟨none, []⟩ ⟨9, false, false, 1, 2⟩).calls =
      [ParentCall.onInput 9 1 2] ∧
    (onStoreChange
        (onStoreChange (initialSyncState false) ⟨none, []⟩ ⟨9, false, false, 1, 2⟩).state
        (onStoreChange (initialSyncState false) ⟨none, []⟩ ⟨9, false, false, 1, 2⟩).pending
        ⟨9, true, false, 3, 4⟩).calls =
      [ParentCall.onChange 9 3 4] :=
  c6_persistence_commit (initialSyncState false) ⟨none, []⟩
    ⟨9, false, false, 1, 2⟩ ⟨9, true, false, 3, 4⟩
    (by decide) rfl rfl rfl rfl rfl

/-- Claim C7: when `isDisabled` is true, the outbound watch installs no
store subscription, so over every sequence of store notifications the
bridge never calls `onChange` or `onInput`. -/
theorem c7_disabled_no_calls (props : BridgeProps) (initialPersistent : Bool)
    (pc : PendingChanges) (ns : List StoreNotification)
    (hdis : props.isDisabled = true) :
    outboundWatch props initialPersistent pc ns = [] := by
  simp [outboundWatch, hdis]

theorem c7_disabled_no_calls_witness :
    outboundWatch ⟨none, none, true, none, none⟩ false ⟨none, []⟩
      [⟨9, true, false, 1, 2⟩, ⟨8, false, true, 3, 4⟩] = [] :=
  c7_disabled_no_calls ⟨none, none, true, none, none⟩ false ⟨none, []⟩
    [⟨9, true, false, 1, 2⟩, ⟨8, false, true, 3, 4⟩] rfl

/-- Claim C8: when the external value is absent, inbound reconciliation
writes nothing to the store besides a possible selection reset: it makes
no `resetBlocks`, `replaceInnerBlocks`, `setHasControlledInnerBlocks` or
mark-not-persistent call (and, being a total function, raises no
exception). -/
theorem c8_absent_value_noop (pc : PendingChanges) (props : BridgeProps)
    (hval : props.value = none) :
    (inboundReconcile pc props).calls =
      (match props.selectionStart, props.selectionEnd with
        | some s, some e => [StoreCall.resetSelection s e]
        | _, _ => []) := by
  simp [inboundReconcile, includesValue, hval, setControlledBlocks]

theorem c8_absent_value_noop_witness :
    (inboundReconcile ⟨none, [4, 5]⟩ ⟨some 3, none, false, some 1, some 2⟩).calls =
      [StoreCall.resetSelection 1 2] :=
  c8_absent_value_noop ⟨none, [4, 5]⟩ ⟨some 3, none, false, some 1, some 2⟩ rfl

/-- Claim C9: inbound reconciliation is not suppressed by the disabled
flag: even with `isDisabled = true`, a genuinely new external value
clears `outgoing`, sets `incoming`, issues the store reset (and the
selection reset when both endpoints are present) exactly as in the
enabled case. -/
theorem c9_inbound_ignores_disabled (pc : PendingChanges) (props : BridgeProps) (v : Ref)
    (hdis : props.isDisabled = true)
    (hval : props.value = some v) (hnot : v ∉ pc.outgoing) :
    (inboundReconcile pc props).pending.outgoing = [] ∧
    (inboundReconcile pc props).pending.incoming = some v ∧
    (inboundReconcile pc props).calls =
      (match props.clientId with
        | some cid =>
          [StoreCall.setHasControlledInnerBlocks cid true,
           StoreCall.markNextChangeAsNotPersistent,
           StoreCall.replaceInnerBlocks cid v]
        | none => [StoreCall.resetBlocks v]) ++
      (match props.selectionStart, props.selectionEnd with
        | some s, some e => [StoreCall.resetSelection s e]
        | _, _ => []) ∧
    inboundReconcile pc props =
      inboundReconcile pc { props with isDisabled := false } := by
  rw [inboundReconcile_fresh pc props v hval hnot,
      inboundReconcile_fresh pc { props with isDisabled := false } v hval hnot]
  exact ⟨rfl, rfl, rfl, rfl⟩

theorem c9_inbound_ignores_disabled_witness :
    (inboundReconcile ⟨none, [4]⟩ ⟨none, some 7, true, some 1, some 2⟩).pending.outgoing = [] ∧
    (inboundReconcile ⟨none, [4]⟩ ⟨none, some 7, true, some 1, some 2⟩).pending.incoming = some 7 ∧
    (inboundReconcile ⟨none, [4]⟩ ⟨none, some 7, true, some 1, some 2⟩).calls =
      [StoreCall.resetBlocks 7] ++ [StoreCall.resetSelection 1 2] ∧
    inboundReconcile ⟨none, [4]⟩ ⟨none, some 7, true, some 1, some 2⟩ =
      inboundReconcile ⟨none, [4]⟩ ⟨none, some 7, false, some 1, some 2⟩ :=
  c9_inbound_ignores_disabled ⟨none, [4]⟩ ⟨none, some 7, true, some 1, some 2⟩ 7
    rfl rfl (by decide)

/-- Claim C10: right after the outbound watch (re)activates, the tracked
tree is uninitialized, so the first notification always sees the blocks
as different and — when no incoming change is pending and the change is
not marked ignored — emits exactly one call, `onChange` if persistent and
`onInput` otherwise, with the current tree and selection bounds. -/
theorem c10_first_notification_forwards (initialPersistent : Bool) (pc : PendingChanges)
    (n : StoreNotification)
    (hinc : pc.incoming = none) (hign : n.isLastBlockChangeIgnored = false) :
    (onStoreChange (initialSyncState initialPersistent) pc n).calls =
      [if n.newIsPersistent then
         ParentCall.onChange n.newBlocks n.selectionStart n.selectionEnd
       else
         ParentCall.onInput n.newBlocks n.selectionStart n.selectionEnd] := by
  simp [onStoreChange, initialSyncState, hinc, hign]

theorem c10_first_notification_forwards_witness :
    (onStoreChange (initialSyncState true) ⟨none, []⟩ ⟨9, true, false, 1, 2⟩).calls =
      [if true then ParentCall.onChange 9 1 2 else ParentCall.onInput 9 1 2] :=
  c10_first_notification_forwards true ⟨none, []⟩ ⟨9, true, false, 1, 2⟩ rfl rfl

end UseBlockSync
